import Mathlib

/-!
# Multi-processor bring-up and inter-processor signalling: a verification model

This file gives a shallow embedding, in Lean 4, of the multi-processor
bring-up and IPI signalling core found in
`kernel/processor/x64/multi_processor-x64.cpp`, and proves (or refutes)
the behavioural properties stated in the accompanying specification.

Modelling conventions:
* C machine integers are modelled as `Nat`; none of the embedded code paths
  rely on wrap-around behaviour.
* Fallible code (an `ASSERT(...)` that can fire, or a kernel `panic`) is
  modelled with an `Option String` "panic" component, or `Except String`,
  carrying the text of the failed assertion.
* Calls into external subsystems (the interrupt controller, the timer, the
  trampoline copy) are recorded as events in a trace rather than executed;
  the traces let us state ordering properties.
* The two genuinely concurrent ingredients — an AP flipping its `running`
  flag during the bounded poll, and the signal target handling the NMI
  while the sender spins — are modelled by an oracle function
  (`wakes : Nat → Bool`) and by running the receive handler at the point
  where the NMI is delivered, respectively.
-/

set_option autoImplicit false

namespace MPX64

/-- Inter-processor control messages (`PROC_IPI_MSGS`).
Modelled from the spec: the enum itself is declared in a processor header
outside the embedded translation unit; the spec describes it as a small
closed enum with members such as SUSPEND, RESUME, RELOAD_TLB.  Only
`SUSPEND` is mentioned by name in the embedded code (the slot initialiser). -/
inductive PROC_IPI_MSGS where
  | SUSPEND
  | RESUME
  | RELOAD_TLB
  deriving DecidableEq, Repr, Inhabited

/-- Communication states between source and target processors
(`PROC_MP_X64_MSG_STATE` in the source). -/
inductive PROC_MP_X64_MSG_STATE where
  | NO_MSG
  | MSG_WAITING
  | ACKNOWLEDGED
  deriving DecidableEq, Repr, Inhabited

/-- One entry of `proc_info_block` (`processor_info` with the x64
`platform_data.lapic_id` flattened into the record; the other
platform-specific fields are not touched by the embedded code). -/
structure processor_info where
  processor_id : Nat
  processor_running : Bool
  lapic_id : Nat
  deriving DecidableEq, Repr, Inhabited

/-- One entry of `inter_proc_signals` (`proc_mp_ipi_msg_state` in the
source).  The spinlock is modelled as a Boolean "held" flag. -/
structure proc_mp_ipi_msg_state where
  msg_being_sent : PROC_IPI_MSGS
  msg_control_state : PROC_MP_X64_MSG_STATE
  signal_lock : Bool
  deriving DecidableEq, Repr, Inhabited

/-- An MADT subtable header together with the fields of an
`acpi_madt_local_apic` payload that the enumerator reads.  For subtables
whose `Type` is not `LOCAL_APIC`, the payload fields are ignored by the
code and carry arbitrary values here. -/
structure acpi_subtable where
  subtableType : Nat
  ProcessorId : Nat
  Id : Nat
  deriving DecidableEq, Repr, Inhabited

/-- `const uint8_t SUBTABLE_LAPIC_TYPE = 0;` -/
def SUBTABLE_LAPIC_TYPE : Nat := 0

/-- First walk of the MADT in `proc_mp_init` (lines 91-102): count the
subtables of type `SUBTABLE_LAPIC_TYPE`; the result becomes
`processor_count`. -/
def count_lapic_pass : List acpi_subtable → Nat
  | [] => 0
  | s :: rest =>
      (if s.subtableType = SUBTABLE_LAPIC_TYPE then 1 else 0) + count_lapic_pass rest

/-- Second walk of the MADT in `proc_mp_init` (lines 110-134): for the
i-th LAPIC subtable, record `i` is written with `processor_id = i`,
`processor_running = false` and `lapic_id` copied from the descriptor.
`procs_saved` is the running counter; `ASSERT(procs_saved < processor_count)`
fires if the walk finds more LAPIC subtables than the first pass counted.
Returns the records produced together with the final value of
`procs_saved`. -/
def save_lapic_pass (processor_count : Nat) (procs_saved : Nat) :
    List acpi_subtable → Except String (List processor_info × Nat)
  | [] => .ok ([], procs_saved)
  | s :: rest =>
      if s.subtableType = SUBTABLE_LAPIC_TYPE then
        if procs_saved < processor_count then
          match save_lapic_pass processor_count (procs_saved + 1) rest with
          | .ok (tail, fin) =>
              .ok ({ processor_id := procs_saved
                     processor_running := false
                     lapic_id := s.Id } :: tail, fin)
          | .error e => .error e
        else .error "ASSERT failed: procs_saved < processor_count"
      else save_lapic_pass processor_count procs_saved rest

/-- The enumeration part of `proc_mp_init` (lines 82-142): check that the
MADT has a non-empty subtable region
(`ASSERT(madt_table->Header.Length > sizeof(acpi_table_madt))`), count the
LAPIC subtables, fill the processor table, and check
`ASSERT(procs_saved == processor_count)`. -/
def proc_mp_enumerate (madt : List acpi_subtable) : Except String (List processor_info) :=
  match madt with
  | [] => .error "ASSERT failed: madt_table Header.Length > sizeof acpi_table_madt"
  | _ :: _ =>
      let processor_count := count_lapic_pass madt
      match save_lapic_pass processor_count 0 madt with
      | .error e => .error e
      | .ok (blk, procs_saved) =>
          if procs_saved = processor_count then .ok blk
          else .error "ASSERT failed: procs_saved == processor_count"

/-- The LAPIC descriptors of an MADT, in iteration order. -/
def lapic_descriptors (madt : List acpi_subtable) : List acpi_subtable :=
  madt.filter (fun s => s.subtableType = SUBTABLE_LAPIC_TYPE)

theorem count_lapic_pass_eq_length (madt : List acpi_subtable) :
    count_lapic_pass madt = (lapic_descriptors madt).length := by
  induction madt with
  | nil => rfl
  | cons s rest ih =>
      by_cases h : s.subtableType = SUBTABLE_LAPIC_TYPE <;>
        simp [count_lapic_pass, lapic_descriptors, List.filter_cons, h, ih,
              lapic_descriptors] at * <;> omega

theorem save_lapic_pass_ok (n : Nat) (l : List acpi_subtable) :
    ∀ k, k + count_lapic_pass l ≤ n →
      save_lapic_pass n k l =
        .ok ((lapic_descriptors l).enumFrom k |>.map
              (fun p => { processor_id := p.1
                          processor_running := false
                          lapic_id := p.2.Id }),
             k + count_lapic_pass l) := by
  induction l with
  | nil =>
      intro k hk
      simp [save_lapic_pass, lapic_descriptors, List.enumFrom, count_lapic_pass]
  | cons s rest ih =>
      intro k hk
      by_cases h : s.subtableType = SUBTABLE_LAPIC_TYPE
      · have hk' : (k + 1) + count_lapic_pass rest ≤ n := by
          simp [count_lapic_pass, h] at hk
          omega
        have hlt : k < n := by
          simp [count_lapic_pass, h] at hk
          omega
        simp only [save_lapic_pass, h, if_true, hlt, ih (k + 1) hk',
              lapic_descriptors, List.filter_cons, if_pos h, List.enumFrom,
              count_lapic_pass]
        simp [Nat.add_assoc]
      · have hk' : k + count_lapic_pass rest ≤ n := by
          simp [count_lapic_pass, h] at hk
          omega
        simp only [save_lapic_pass, h, if_false, ih k hk', lapic_descriptors,
              List.filter_cons, if_neg h, count_lapic_pass]
        simp [lapic_descriptors, h]

/-- Closed form of the enumeration on a non-empty MADT: it succeeds and
produces exactly the enumerated LAPIC descriptors. -/
theorem proc_mp_enumerate_eq (madt : List acpi_subtable) (hne : madt ≠ []) :
    proc_mp_enumerate madt =
      .ok ((lapic_descriptors madt).enum.map
            (fun p => { processor_id := p.1
                        processor_running := false
                        lapic_id := p.2.Id })) := by
  match madt, hne with
  | s :: rest, _ =>
      have h := save_lapic_pass_ok (count_lapic_pass (s :: rest)) (s :: rest) 0
        (by omega)
      simp only [proc_mp_enumerate, h, Nat.zero_add, List.enum]
      simp

/-- C3: for an MADT with a non-empty subtable region containing k
LOCAL_APIC descriptors, enumeration succeeds; the processor table has
exactly k records; record i has processor_id i, processor_running false,
and lapic_id equal to the Id field of the i-th LOCAL_APIC descriptor in
iteration order (descriptors of other types are ignored by construction of
lapic_descriptors). -/
theorem C3_enumeration_dense (madt : List acpi_subtable) (hne : madt ≠ []) :
    ∃ blk, proc_mp_enumerate madt = .ok blk ∧
      blk.length = (lapic_descriptors madt).length ∧
      ∀ i, i < blk.length →
        ∃ r d, blk[i]? = some r ∧ (lapic_descriptors madt)[i]? = some d ∧
          r.processor_id = i ∧ r.processor_running = false ∧ r.lapic_id = d.Id := by
  refine ⟨_, proc_mp_enumerate_eq madt hne, by simp, ?_⟩
  intro i hi
  simp only [List.length_map, List.enum_length] at hi
  have hd : ∃ d, (lapic_descriptors madt)[i]? = some d :=
    ⟨(lapic_descriptors madt).get ⟨i, hi⟩, by simp⟩
  obtain ⟨d, hd⟩ := hd
  refine ⟨{ processor_id := i, processor_running := false, lapic_id := d.Id },
    d, ?_, hd, rfl, rfl, rfl⟩
  simp [List.getElem?_map, List.getElem?_enum, hd]

/-- Witness for C3 at a concrete MADT: one IOAPIC-style subtable (type 1)
interleaved between two LOCAL_APIC subtables with Ids 4 and 9. -/
theorem C3_enumeration_dense_witness :
    ∃ blk, proc_mp_enumerate
        [{ subtableType := 0, ProcessorId := 0, Id := 4 },
         { subtableType := 1, ProcessorId := 0, Id := 77 },
         { subtableType := 0, ProcessorId := 1, Id := 9 }] = .ok blk ∧
      blk.length = (lapic_descriptors
        [{ subtableType := 0, ProcessorId := 0, Id := 4 },
         { subtableType := 1, ProcessorId := 0, Id := 77 },
         { subtableType := 0, ProcessorId := 1, Id := 9 }]).length ∧
      ∀ i, i < blk.length →
        ∃ r d, blk[i]? = some r ∧ (lapic_descriptors
          [{ subtableType := 0, ProcessorId := 0, Id := 4 },
           { subtableType := 1, ProcessorId := 0, Id := 77 },
           { subtableType := 0, ProcessorId := 1, Id := 9 }])[i]? = some d ∧
          r.processor_id = i ∧ r.processor_running = false ∧ r.lapic_id = d.Id :=
  C3_enumeration_dense
    [{ subtableType := 0, ProcessorId := 0, Id := 4 },
     { subtableType := 1, ProcessorId := 0, Id := 77 },
     { subtableType := 0, ProcessorId := 1, Id := 9 }] (by decide)

/-- Shorthand targets for `proc_send_ipi`.
Modelled from the spec: the enum is declared in a processor header outside
the embedded translation unit; the embedded code only ever passes NONE. -/
inductive PROC_IPI_SHORT_TARGET where
  | NONE
  | SELF
  | ALL_INCL
  | ALL_EXCL
  deriving DecidableEq, Repr

/-- IPI kinds for `proc_send_ipi`.
Modelled from the spec: the enum is declared in a processor header outside
the embedded translation unit; the embedded code passes INIT, STARTUP and
NMI. -/
inductive PROC_IPI_INTERRUPT where
  | INIT
  | STARTUP
  | NMI
  | FIXED
  deriving DecidableEq, Repr

/-- Externally visible actions of the boot sequencer, recorded as a trace:
calls to `proc_send_ipi` with their arguments, and busy-waits via
`time_stall_process` with the requested duration in nanoseconds. -/
inductive BootEvent where
  | send_ipi (apic_dest : Nat) (shorthand : PROC_IPI_SHORT_TARGET)
      (interrupt : PROC_IPI_INTERRUPT) (vector : Nat) (wait_for_delivery : Bool)
  | stall (ns : Nat)
  deriving DecidableEq, Repr

/-- The physical address the trampoline is copied to (`0x1000` in the
source, "SIPI vector number 1"). -/
def TRAMPOLINE_PADDR : Nat := 0x1000

/-- The argument the boot sequencer passes to
`time_get_system_timer_offset` to size the per-AP wake-up poll window
(line 170 of the source). -/
def ap_startup_wait_request_ns : Nat := 10000000000

/-- One second expressed in nanoseconds.
Modelled from the spec: the timer subsystem is an external collaborator;
the spec defines its duration arguments to be nanoseconds
(`ticks_for(nanoseconds)`, `busy_wait(nanoseconds)`), which agrees with the
source passing 10000000 for its commented "10ms wait". -/
def one_second_ns : Nat := 1000000000

/-- The busy-wait between the INIT and STARTUP IPIs
(`time_stall_process(10000000)`, i.e. 10 ms). -/
def init_sipi_gap_ns : Nat := 10000000

/-- One iteration of the AP bring-up loop in `proc_mp_init`
(lines 171-213) for the record `p`.  `local_apic_id` is the value of
`proc_x64_apic_get_local_id()`; `wakes i` abstracts the bounded busy-poll:
it is true iff processor `i` sets its `processor_running` flag within the
poll window.  On success, returns the updated record and the IPI/stall
events emitted; if the poll window expires,
`ASSERT(proc_info_block[i].processor_running)` fires. -/
def proc_mp_boot_one (local_apic_id : Nat) (wakes : Nat → Bool)
    (p : processor_info) : Except String (processor_info × List BootEvent) :=
  if p.lapic_id = local_apic_id then
    .ok ({ p with processor_running := true }, [])
  else
    if wakes p.processor_id then
      .ok ({ p with processor_running := true },
        [ .send_ipi p.lapic_id .NONE .INIT 0 true,
          .stall init_sipi_gap_ns,
          .send_ipi p.lapic_id .NONE .STARTUP 1 true ])
    else .error "ASSERT failed: proc_info_block[i].processor_running"

/-- The whole AP bring-up loop: the records are visited strictly in table
order, one at a time; the traces of the individual iterations are
concatenated in that order. -/
def proc_mp_boot_all (local_apic_id : Nat) (wakes : Nat → Bool) :
    List processor_info → Except String (List processor_info × List BootEvent)
  | [] => .ok ([], [])
  | p :: rest =>
      match proc_mp_boot_one local_apic_id wakes p with
      | .error e => .error e
      | .ok (p', evs) =>
          match proc_mp_boot_all local_apic_id wakes rest with
          | .error e => .error e
          | .ok (rest', evs') => .ok (p' :: rest', evs ++ evs')

/-- `proc_mp_init` end to end: enumerate the MADT, initialise the
inter-processor signal slots (message SUSPEND, state NO_MSG, lock free),
then run the AP bring-up loop.  The interrupt-controller configuration and
the trampoline copy are calls into external subsystems with no bearing on
the modelled state and are elided.  Returns the final processor table, the
initialised signal-slot array and the boot trace. -/
def proc_mp_init (madt : List acpi_subtable) (local_apic_id : Nat)
    (wakes : Nat → Bool) :
    Except String (List processor_info × List proc_mp_ipi_msg_state × List BootEvent) :=
  match proc_mp_enumerate madt with
  | .error e => .error e
  | .ok blk =>
      let signals : List proc_mp_ipi_msg_state :=
        blk.map (fun _ => { msg_being_sent := .SUSPEND
                            msg_control_state := .NO_MSG
                            signal_lock := false })
      match proc_mp_boot_all local_apic_id wakes blk with
      | .error e => .error e
      | .ok (blk', evs) => .ok (blk', signals, evs)

/-- C5: the boot sequencer visits the records in table order.  A record
whose lapic_id is the executing processor's gets its running flag set and
contributes no events; every other record contributes exactly one INIT IPI
(shorthand NONE, wait-for-delivery), a 10 ms stall, and one STARTUP IPI
with vector TRAMPOLINE_PADDR >>> 12 = 1, in that order, before the next
record is visited.  The hypothesis says every AP wakes within its poll
window, so the loop completes. -/
theorem C5_boot_sequence (blk : List processor_info) (local_apic_id : Nat)
    (wakes : Nat → Bool)
    (hwakes : ∀ p ∈ blk, p.lapic_id ≠ local_apic_id → wakes p.processor_id = true) :
    proc_mp_boot_all local_apic_id wakes blk =
      .ok (blk.map (fun p => { p with processor_running := true }),
        (blk.map (fun p =>
          if p.lapic_id = local_apic_id then ([] : List BootEvent)
          else
            [ .send_ipi p.lapic_id .NONE .INIT 0 true,
              .stall init_sipi_gap_ns,
              .send_ipi p.lapic_id .NONE .STARTUP (TRAMPOLINE_PADDR >>> 12) true ])).flatten) := by
  induction blk with
  | nil => rfl
  | cons p rest ih =>
      have hrest : ∀ q ∈ rest, q.lapic_id ≠ local_apic_id → wakes q.processor_id = true :=
        fun q hq => hwakes q (List.mem_cons_of_mem p hq)
      have hvec : TRAMPOLINE_PADDR >>> 12 = 1 := by decide
      by_cases h : p.lapic_id = local_apic_id
      · simp [proc_mp_boot_all, proc_mp_boot_one, h, ih hrest]
      · have hw : wakes p.processor_id = true :=
          hwakes p (List.mem_cons_self p rest) h
        simp [proc_mp_boot_all, proc_mp_boot_one, h, hw, ih hrest, hvec]

/-- Witness for C5: a two-record table whose first record is the executing
processor (lapic 3) and whose second (lapic 5) wakes. -/
theorem C5_boot_sequence_witness :
    proc_mp_boot_all 3 (fun _ => true)
      [{ processor_id := 0, processor_running := false, lapic_id := 3 },
       { processor_id := 1, processor_running := false, lapic_id := 5 }] =
      .ok (([{ processor_id := 0, processor_running := false, lapic_id := 3 },
             { processor_id := 1, processor_running := false, lapic_id := 5 }] :
               List processor_info).map
              (fun p => { p with processor_running := true }),
        (([{ processor_id := 0, processor_running := false, lapic_id := 3 },
           { processor_id := 1, processor_running := false, lapic_id := 5 }] :
             List processor_info).map
            (fun p =>
              if p.lapic_id = 3 then ([] : List BootEvent)
              else
                [ .send_ipi p.lapic_id .NONE .INIT 0 true,
                  .stall init_sipi_gap_ns,
                  .send_ipi p.lapic_id .NONE .STARTUP (TRAMPOLINE_PADDR >>> 12) true ])).flatten) :=
  C5_boot_sequence
    [{ processor_id := 0, processor_running := false, lapic_id := 3 },
     { processor_id := 1, processor_running := false, lapic_id := 5 }] 3
    (fun _ => true) (by decide)

/-- C2: the wake-up poll window.  The source asks the timer for
10000000000 ns — ten seconds, not the one second its own comment and the
spec state — and an AP that fails to set its running flag within the
window is fatal (the assertion fires). -/
theorem C2_poll_window_is_ten_seconds :
    ap_startup_wait_request_ns = 10 * one_second_ns ∧
    ap_startup_wait_request_ns ≠ one_second_ns ∧
    proc_mp_boot_one 0 (fun _ => false)
        { processor_id := 1, processor_running := false, lapic_id := 5 } =
      .error "ASSERT failed: proc_info_block[i].processor_running" :=
  ⟨rfl, by decide, rfl⟩

/-- C7 counterexample: an MADT whose only subtable is not a LOCAL_APIC
descriptor (type 1).  The walk finds zero LOCAL_APIC descriptors, yet
proc_mp_init does not halt: every assertion passes and it returns normally
with an empty processor table. -/
theorem C7_counterexample :
    proc_mp_init [{ subtableType := 1, ProcessorId := 7, Id := 7 }] 0
        (fun _ => false) = .ok ([], [], []) := rfl

/-- C7 amended: proc_mp_init asserts only that the MADT subtable region is
non-empty; a walk that finds zero LOCAL_APIC descriptors is not fatal —
enumeration yields an empty processor table, the boot loop does nothing,
and proc_mp_init completes normally. -/
theorem C7_amended_zero_lapics_not_fatal (madt : List acpi_subtable)
    (local_apic_id : Nat) (wakes : Nat → Bool) (hne : madt ≠ [])
    (hzero : count_lapic_pass madt = 0) :
    proc_mp_init madt local_apic_id wakes = .ok ([], [], []) := by
  have henum := proc_mp_enumerate_eq madt hne
  have hlen : (lapic_descriptors madt).length = 0 := by
    rw [← count_lapic_pass_eq_length]
    exact hzero
  have hnil : lapic_descriptors madt = [] := List.length_eq_zero.mp hlen
  rw [hnil] at henum
  simp only [List.enum, List.enumFrom, List.map_nil] at henum
  simp [proc_mp_init, henum, proc_mp_boot_all]

/-- Witness for C7 amended: an MADT holding a single type-2 subtable. -/
theorem C7_amended_witness :
    proc_mp_init [{ subtableType := 2, ProcessorId := 0, Id := 0 }] 4
        (fun _ => true) = .ok ([], [], []) :=
  C7_amended_zero_lapics_not_fatal
    [{ subtableType := 2, ProcessorId := 0, Id := 0 }] 4 (fun _ => true)
    (by decide) (by decide)

/-- The search loop of `proc_mp_this_proc_id` (lines 280-288): walk
`proc_info_block` in order; at the first record whose `lapic_id` equals the
executing CPU's, return that record's `processor_id` field (the loop sets
`proc_id` and breaks). -/
def find_lapic (lapic_id : Nat) : List processor_info → Option Nat
  | [] => none
  | p :: rest =>
      if lapic_id = p.lapic_id then some p.processor_id
      else find_lapic lapic_id rest

/-- `proc_mp_this_proc_id` (lines 265-303).  `lapic_id` is the value read
from the CPU by `proc_x64_apic_get_local_id()`.  If `processor_count > 0`,
linear-search the table; a miss fires `ASSERT(apic_id_found)`.  If the
table is empty (pre-enumeration), processor 0 is assumed. -/
def proc_mp_this_proc_id (blk : List processor_info) (lapic_id : Nat) :
    Except String Nat :=
  if 0 < blk.length then
    match find_lapic lapic_id blk with
    | some proc_id => .ok proc_id
    | none => .error "ASSERT failed: apic_id_found"
  else .ok 0

theorem find_lapic_none (lapic_id : Nat) (blk : List processor_info)
    (h : ∀ p ∈ blk, p.lapic_id ≠ lapic_id) : find_lapic lapic_id blk = none := by
  induction blk with
  | nil => rfl
  | cons p rest ih =>
      have hp : p.lapic_id ≠ lapic_id := h p (List.mem_cons_self p rest)
      have hne : ¬ lapic_id = p.lapic_id := fun hx => hp hx.symm
      simp [find_lapic, hne]
      exact ih (fun q hq => h q (List.mem_cons_of_mem p hq))

theorem find_lapic_first (lapic_id : Nat) (blk : List processor_info) :
    ∀ i (h : i < blk.length),
      (blk.get ⟨i, h⟩).lapic_id = lapic_id →
      (∀ j (hj : j < i), (blk.get ⟨j, Nat.lt_trans hj h⟩).lapic_id ≠ lapic_id) →
      find_lapic lapic_id blk = some (blk.get ⟨i, h⟩).processor_id := by
  induction blk with
  | nil => intro i h; exact absurd h (by simp)
  | cons p rest ih =>
      intro i h hmatch hfirst
      match i with
      | 0 =>
          simp at hmatch
          simp [find_lapic, hmatch]
      | Nat.succ i' =>
          have hp : p.lapic_id ≠ lapic_id := by
            have := hfirst 0 (Nat.succ_pos i')
            simpa using this
          have hne : ¬ lapic_id = p.lapic_id := fun hx => hp hx.symm
          have h' : i' < rest.length := Nat.lt_of_succ_lt_succ h
          have hmatch' : (rest.get ⟨i', h'⟩).lapic_id = lapic_id := by
            simpa using hmatch
          have hfirst' : ∀ j (hj : j < i'),
              (rest.get ⟨j, Nat.lt_trans hj h'⟩).lapic_id ≠ lapic_id := by
            intro j hj
            have := hfirst (j + 1) (Nat.succ_lt_succ hj)
            simpa using this
          simp [find_lapic, hne]
          have := ih i' h' hmatch' hfirst'
          simpa using this

/-- C6: processor self-identification.  On an empty table it returns 0; on
a non-empty table it returns the processor_id of the first record whose
lapic_id matches the executing CPU's hardware id; if no record matches, the
assertion fires (fatal). -/
theorem C6_self_id (blk : List processor_info) (lapic_id : Nat) :
    (blk = [] → proc_mp_this_proc_id blk lapic_id = .ok 0) ∧
    (∀ i (h : i < blk.length),
      (blk.get ⟨i, h⟩).lapic_id = lapic_id →
      (∀ j (hj : j < i), (blk.get ⟨j, Nat.lt_trans hj h⟩).lapic_id ≠ lapic_id) →
      proc_mp_this_proc_id blk lapic_id = .ok (blk.get ⟨i, h⟩).processor_id) ∧
    (blk ≠ [] → (∀ p ∈ blk, p.lapic_id ≠ lapic_id) →
      proc_mp_this_proc_id blk lapic_id = .error "ASSERT failed: apic_id_found") := by
  refine ⟨?_, ?_, ?_⟩
  · intro h
    subst h
    rfl
  · intro i h hmatch hfirst
    have hpos : 0 < blk.length := Nat.lt_of_le_of_lt (Nat.zero_le i) h
    simp [proc_mp_this_proc_id, hpos, find_lapic_first lapic_id blk i h hmatch hfirst]
  · intro hne hmiss
    have hpos : 0 < blk.length := List.length_pos.mpr hne
    simp [proc_mp_this_proc_id, hpos, find_lapic_none lapic_id blk hmiss]

/-- Witness for C6 on a three-record table: lapic 9 is matched at index 1
(first match), so self-id returns kernel id 1. -/
theorem C6_self_id_witness :
    proc_mp_this_proc_id
      [{ processor_id := 0, processor_running := true, lapic_id := 2 },
       { processor_id := 1, processor_running := false, lapic_id := 9 },
       { processor_id := 2, processor_running := false, lapic_id := 12 }] 9 =
      .ok 1 := by
  have h := (C6_self_id
    [{ processor_id := 0, processor_running := true, lapic_id := 2 },
     { processor_id := 1, processor_running := false, lapic_id := 9 },
     { processor_id := 2, processor_running := false, lapic_id := 12 }] 9).2.1
    1 (by decide) (by decide) (by decide)
  simpa using h

/-- Update the element at index `i` of a list in place, as the C code
updates one entry of a global array; out-of-range indices leave the list
unchanged (the embedded code never relies on that case in a proved
theorem). -/
def list_modify {α : Type} : List α → Nat → (α → α) → List α
  | [], _, _ => []
  | x :: rest, 0, f => f x :: rest
  | x :: rest, Nat.succ n, f => x :: list_modify rest n f

theorem list_modify_length {α : Type} (l : List α) (i : Nat) (f : α → α) :
    (list_modify l i f).length = l.length := by
  induction l generalizing i with
  | nil => rfl
  | cons x rest ih =>
      match i with
      | 0 => rfl
      | Nat.succ n => simp [list_modify, ih n]

theorem list_modify_get_same {α : Type} (l : List α) (i : Nat) (f : α → α) :
    (list_modify l i f)[i]? = l[i]?.map f := by
  induction l generalizing i with
  | nil => simp [list_modify]
  | cons x rest ih =>
      match i with
      | 0 => simp [list_modify]
      | Nat.succ n => simpa [list_modify] using ih n

theorem list_modify_get_other {α : Type} (l : List α) (i j : Nat) (f : α → α)
    (h : i ≠ j) : (list_modify l i f)[j]? = l[j]? := by
  induction l generalizing i j with
  | nil => simp [list_modify]
  | cons x rest ih =>
      match i, j with
      | 0, 0 => exact absurd rfl h
      | 0, Nat.succ m => simp [list_modify]
      | Nat.succ n, 0 => simp [list_modify]
      | Nat.succ n, Nat.succ m =>
          have h' : n ≠ m := fun hx => h (by rw [hx])
          simpa [list_modify] using ih n m h'

/-- The global mutable state the signal channel works on: `proc_info_block`
and `inter_proc_signals` (both allocated to `processor_count` entries in
`proc_mp_init`). -/
structure MPState where
  proc_info_block : List processor_info
  inter_proc_signals : List proc_mp_ipi_msg_state
  deriving DecidableEq, Repr

/-- Observable actions of a signal transaction, in the order they are
performed by the send path (`proc_mp_x64_signal_proc`) and, on the target,
by the receive path (`proc_mp_x64_receive_signal_int`). -/
inductive SigEvent where
  | acquire_lock (proc_id : Nat)
  | write_msg (proc_id : Nat) (msg : PROC_IPI_MSGS)
  | publish_waiting (proc_id : Nat)
  | send_nmi (apic_dest : Nat)
  | dispatch (proc_id : Nat) (msg : PROC_IPI_MSGS)
  | publish_ack (proc_id : Nat)
  | clear_to_idle (proc_id : Nat)
  | release_lock (proc_id : Nat)
  deriving DecidableEq, Repr

/-- The outcome of running a signal-channel path: an optional kernel panic
(the text of the failed assertion, or a marker for an unmodelled unbounded
spin), the state as left behind, and the trace of observable actions. -/
structure MPResult where
  panic : Option String
  state : MPState
  events : List SigEvent
  deriving DecidableEq, Repr

/-- `proc_mp_x64_receive_signal_int` (lines 352-365), the NMI-handler
hook on the processor whose local APIC id is `local_apic_id`: resolve this
processor's kernel id, `ASSERT` that the slot state is MSG_WAITING,
dispatch the pending message to `proc_mp_receive_signal` (recorded as a
`dispatch` event), then publish ACKNOWLEDGED. -/
def proc_mp_x64_receive_signal_int (st : MPState) (local_apic_id : Nat) : MPResult :=
  match proc_mp_this_proc_id st.proc_info_block local_apic_id with
  | .error e => { panic := some e, state := st, events := [] }
  | .ok this_proc_id =>
      match st.inter_proc_signals[this_proc_id]? with
      | none =>
          { panic := some "unmodelled: signal slot index out of range"
            state := st, events := [] }
      | some slot =>
          if slot.msg_control_state = .MSG_WAITING then
            { panic := none
              state := { st with
                inter_proc_signals := list_modify st.inter_proc_signals
                  this_proc_id
                  (fun s => { s with msg_control_state := .ACKNOWLEDGED }) }
              events := [ .dispatch this_proc_id slot.msg_being_sent,
                          .publish_ack this_proc_id ] }
          else
            { panic := some "ASSERT failed: msg_control_state == MSG_WAITING"
              state := st, events := [] }

/-- `proc_mp_x64_signal_proc` (lines 316-345).  `ASSERT(proc_id <
processor_count)`; acquire the target slot's spinlock (a caller that finds
it held would spin — modelled as a distinguished unmodelled outcome, ruled
out by the theorems' hypotheses); `ASSERT` the slot state is NO_MSG; write
the message; publish MSG_WAITING; deliver the NMI to the target's lapic
(the target's receive handler runs at this point — NMIs are unmaskable and
the sender spins until the handler has run, so running it inline is the
faithful sequentialisation of the blocking call); spin until ACKNOWLEDGED;
restore NO_MSG; release the lock. -/
def proc_mp_x64_signal_proc (st : MPState) (proc_id : Nat) (msg : PROC_IPI_MSGS) :
    MPResult :=
  if proc_id < st.proc_info_block.length then
    match st.inter_proc_signals[proc_id]?, st.proc_info_block[proc_id]? with
    | some slot0, some target =>
        if slot0.signal_lock then
          { panic := some "unmodelled: sender spins on held signal_lock"
            state := st, events := [] }
        else
          let st1 : MPState := { st with
            inter_proc_signals := list_modify st.inter_proc_signals proc_id
              (fun s => { s with signal_lock := true }) }
          if slot0.msg_control_state = .NO_MSG then
            let st2 : MPState := { st1 with
              inter_proc_signals := list_modify st1.inter_proc_signals proc_id
                (fun s => { s with msg_being_sent := msg }) }
            let st3 : MPState := { st2 with
              inter_proc_signals := list_modify st2.inter_proc_signals proc_id
                (fun s => { s with msg_control_state := .MSG_WAITING }) }
            let evs3 : List SigEvent :=
              [ .acquire_lock proc_id, .write_msg proc_id msg,
                .publish_waiting proc_id, .send_nmi target.lapic_id ]
            let recv := proc_mp_x64_receive_signal_int st3 target.lapic_id
            match recv.panic with
            | some e =>
                { panic := some e, state := recv.state
                  events := evs3 ++ recv.events }
            | none =>
                match recv.state.inter_proc_signals[proc_id]? with
                | some slot4 =>
                    if slot4.msg_control_state = .ACKNOWLEDGED then
                      let st5 : MPState := { recv.state with
                        inter_proc_signals := list_modify
                          recv.state.inter_proc_signals proc_id
                          (fun s => { s with msg_control_state := .NO_MSG }) }
                      let st6 : MPState := { st5 with
                        inter_proc_signals := list_modify st5.inter_proc_signals
                          proc_id (fun s => { s with signal_lock := false }) }
                      { panic := none, state := st6
                        events := evs3 ++ recv.events ++
                          [ .clear_to_idle proc_id, .release_lock proc_id ] }
                    else
                      { panic := some "unmodelled: sender spins awaiting ACKNOWLEDGED"
                        state := recv.state, events := evs3 ++ recv.events }
                | none =>
                    { panic := some "unmodelled: signal slot index out of range"
                      state := recv.state, events := evs3 ++ recv.events }
          else
            { panic := some "ASSERT failed: msg_control_state == NO_MSG"
              state := st1, events := [ .acquire_lock proc_id ] }
    | _, _ =>
        { panic := some "unmodelled: signal slot index out of range"
          state := st, events := [] }
  else
    { panic := some "ASSERT failed: proc_id < processor_count"
      state := st, events := [] }

/-- C1 counterexample: a single-processor system at rest (slot state
NO_MSG, nothing pending).  A stray NMI entering the receive hook does NOT
silently return — the assertion on the slot state fires, which is fatal.
The claimed behaviour (return unchanged, reporting the NMI as not
consumed) is therefore false on the code. -/
theorem C1_counterexample :
    proc_mp_x64_receive_signal_int
      { proc_info_block := [{ processor_id := 0, processor_running := true, lapic_id := 0 }]
        inter_proc_signals := [{ msg_being_sent := .SUSPEND
                                 msg_control_state := .NO_MSG
                                 signal_lock := false }] } 0 =
      { panic := some "ASSERT failed: msg_control_state == MSG_WAITING"
        state := { proc_info_block := [{ processor_id := 0, processor_running := true, lapic_id := 0 }]
                   inter_proc_signals := [{ msg_being_sent := .SUSPEND
                                            msg_control_state := .NO_MSG
                                            signal_lock := false }] }
        events := [] } := rfl

/-- C1 amended: if the receive hook runs on a processor whose signal slot
has state other than MSG_WAITING, the assertion
`ASSERT(msg_control_state == MSG_WAITING)` fails — the kernel halts
fatally; no message is dispatched and the slot is left untouched at the
point of the panic. -/
theorem C1_amended_stray_nmi_fatal (st : MPState) (local_apic_id pid : Nat)
    (slot : proc_mp_ipi_msg_state)
    (hpid : proc_mp_this_proc_id st.proc_info_block local_apic_id = .ok pid)
    (hslot : st.inter_proc_signals[pid]? = some slot)
    (hstate : slot.msg_control_state ≠ .MSG_WAITING) :
    proc_mp_x64_receive_signal_int st local_apic_id =
      { panic := some "ASSERT failed: msg_control_state == MSG_WAITING"
        state := st, events := [] } := by
  simp [proc_mp_x64_receive_signal_int, hpid, hslot, hstate]

/-- Witness for C1 amended: a two-processor system whose second slot is at
rest; the stray NMI arrives on the processor with lapic id 6. -/
theorem C1_amended_witness :
    proc_mp_x64_receive_signal_int
      { proc_info_block := [{ processor_id := 0, processor_running := true, lapic_id := 4 },
                            { processor_id := 1, processor_running := true, lapic_id := 6 }]
        inter_proc_signals := [{ msg_being_sent := .SUSPEND
                                 msg_control_state := .NO_MSG
                                 signal_lock := false },
                               { msg_being_sent := .RESUME
                                 msg_control_state := .ACKNOWLEDGED
                                 signal_lock := false }] } 6 =
      { panic := some "ASSERT failed: msg_control_state == MSG_WAITING"
        state := { proc_info_block := [{ processor_id := 0, processor_running := true, lapic_id := 4 },
                                       { processor_id := 1, processor_running := true, lapic_id := 6 }]
                   inter_proc_signals := [{ msg_being_sent := .SUSPEND
                                            msg_control_state := .NO_MSG
                                            signal_lock := false },
                                          { msg_being_sent := .RESUME
                                            msg_control_state := .ACKNOWLEDGED
                                            signal_lock := false }] }
        events := [] } :=
  C1_amended_stray_nmi_fatal
    { proc_info_block := [{ processor_id := 0, processor_running := true, lapic_id := 4 },
                          { processor_id := 1, processor_running := true, lapic_id := 6 }]
      inter_proc_signals := [{ msg_being_sent := .SUSPEND
                               msg_control_state := .NO_MSG
                               signal_lock := false },
                             { msg_being_sent := .RESUME
                               msg_control_state := .ACKNOWLEDGED
                               signal_lock := false }] } 6 1
    { msg_being_sent := .RESUME, msg_control_state := .ACKNOWLEDGED, signal_lock := false }
    rfl rfl (by decide)

/-- C9: calling the signal path with a target kernel id at or beyond
processor_count fails the range assertion immediately: no event is emitted
(in particular the slot lock is never taken) and the state is exactly as it
was at the point of the panic. -/
theorem C9_signal_range_check (st : MPState) (proc_id : Nat) (msg : PROC_IPI_MSGS)
    (h : st.proc_info_block.length ≤ proc_id) :
    proc_mp_x64_signal_proc st proc_id msg =
      { panic := some "ASSERT failed: proc_id < processor_count"
        state := st, events := [] } := by
  simp [proc_mp_x64_signal_proc, Nat.not_lt.mpr h]

/-- Witness for C9: signalling processor 2 of a one-processor system. -/
theorem C9_signal_range_check_witness :
    proc_mp_x64_signal_proc
      { proc_info_block := [{ processor_id := 0, processor_running := true, lapic_id := 0 }]
        inter_proc_signals := [{ msg_being_sent := .SUSPEND
                                 msg_control_state := .NO_MSG
                                 signal_lock := false }] } 2 .RESUME =
      { panic := some "ASSERT failed: proc_id < processor_count"
        state := { proc_info_block := [{ processor_id := 0, processor_running := true, lapic_id := 0 }]
                   inter_proc_signals := [{ msg_being_sent := .SUSPEND
                                            msg_control_state := .NO_MSG
                                            signal_lock := false }] }
        events := [] } :=
  C9_signal_range_check
    { proc_info_block := [{ processor_id := 0, processor_running := true, lapic_id := 0 }]
      inter_proc_signals := [{ msg_being_sent := .SUSPEND
                               msg_control_state := .NO_MSG
                               signal_lock := false }] } 2 .RESUME (by decide)

theorem mem_of_getElem_some {α : Type} (l : List α) :
    ∀ (n : Nat) (a : α), l[n]? = some a → a ∈ l := by
  induction l with
  | nil => intro n a h; simp at h
  | cons x rest ih =>
      intro n a h
      match n with
      | 0 =>
          simp at h
          simp [h]
      | Nat.succ m =>
          have h' : rest[m]? = some a := by simpa using h
          exact List.mem_cons_of_mem x (ih m a h')

/-- In a table whose lapic ids are pairwise distinct, the linear search
started from a record's own lapic id finds exactly that record's
processor_id. -/
theorem find_lapic_nodup (blk : List processor_info) :
    ∀ (i : Nat) (t : processor_info), blk[i]? = some t →
      (blk.map processor_info.lapic_id).Nodup →
      find_lapic t.lapic_id blk = some t.processor_id := by
  induction blk with
  | nil => intro i t ht; simp at ht
  | cons p rest ih =>
      intro i t ht hnd
      have hnd2 : (p.lapic_id :: rest.map processor_info.lapic_id).Nodup := by
        simpa using hnd
      have hnd' := List.nodup_cons.mp hnd2
      match i with
      | 0 =>
          simp at ht
          subst ht
          simp [find_lapic]
      | Nat.succ n =>
          have ht' : rest[n]? = some t := by simpa using ht
          have hmem : t.lapic_id ∈ rest.map processor_info.lapic_id :=
            List.mem_map_of_mem processor_info.lapic_id
              (mem_of_getElem_some rest n t ht')
          have hne : ¬ t.lapic_id = p.lapic_id := fun heq => hnd'.1 (heq ▸ hmem)
          simp only [find_lapic, if_neg hne]
          exact ih n t ht' hnd'.2

/-- Two in-place updates at the same index compose. -/
theorem list_modify_modify {α : Type} (l : List α) (i : Nat) (f g : α → α) :
    list_modify (list_modify l i f) i g = list_modify l i (fun x => g (f x)) := by
  induction l generalizing i with
  | nil => rfl
  | cons x rest ih =>
      match i with
      | 0 => rfl
      | Nat.succ n => simp [list_modify, ih n]

/-- The receive hook on a slot in state MSG_WAITING: the pending message
is dispatched and the slot is moved to ACKNOWLEDGED. -/
theorem receive_signal_int_ok (st : MPState) (lapic pid : Nat)
    (slot : proc_mp_ipi_msg_state)
    (hthis : proc_mp_this_proc_id st.proc_info_block lapic = .ok pid)
    (hslot : st.inter_proc_signals[pid]? = some slot)
    (hwait : slot.msg_control_state = .MSG_WAITING) :
    proc_mp_x64_receive_signal_int st lapic =
      { panic := none
        state :=
          { st with
            inter_proc_signals :=
              list_modify st.inter_proc_signals pid
                (fun s => { s with msg_control_state := .ACKNOWLEDGED }) }
        events := [ .dispatch pid slot.msg_being_sent, .publish_ack pid ] } := by
  simp [proc_mp_x64_receive_signal_int, hthis, hslot, hwait]

/-- C4: one signal transaction against a well-formed table (dense kernel
ids, pairwise-distinct lapic ids) and an in-range target.  If the sender
finds the slot unlocked and in state NO_MSG (IDLE), the call completes
without a panic, and the observable actions happen in exactly this order:
lock acquired; message written; MSG_WAITING published; NMI sent to the
target's lapic; message dispatched on the target; ACKNOWLEDGED published;
slot cleared back to NO_MSG; lock released.  On return the target slot is
in state NO_MSG with the lock free (still holding the delivered message),
every other slot is untouched, and the processor table is untouched.  If
instead the sender observes a slot state other than NO_MSG after taking
the lock, the assertion fires — fatal. -/
theorem C4_signal_transaction (st : MPState) (proc_id : Nat) (msg : PROC_IPI_MSGS)
    (slot0 : proc_mp_ipi_msg_state)
    (hids : ∀ (i : Nat) (r : processor_info),
      st.proc_info_block[i]? = some r → r.processor_id = i)
    (hnodup : (st.proc_info_block.map processor_info.lapic_id).Nodup)
    (hpid : proc_id < st.proc_info_block.length)
    (hslot : st.inter_proc_signals[proc_id]? = some slot0)
    (hlock : slot0.signal_lock = false) :
    (slot0.msg_control_state = .NO_MSG →
      ∃ target, st.proc_info_block[proc_id]? = some target ∧
        (proc_mp_x64_signal_proc st proc_id msg).panic = none ∧
        (proc_mp_x64_signal_proc st proc_id msg).events =
          [ .acquire_lock proc_id, .write_msg proc_id msg,
            .publish_waiting proc_id, .send_nmi target.lapic_id,
            .dispatch proc_id msg, .publish_ack proc_id,
            .clear_to_idle proc_id, .release_lock proc_id ] ∧
        (proc_mp_x64_signal_proc st proc_id msg).state.proc_info_block =
          st.proc_info_block ∧
        (proc_mp_x64_signal_proc st proc_id msg).state.inter_proc_signals[proc_id]? =
          some { msg_being_sent := msg, msg_control_state := .NO_MSG,
                 signal_lock := false } ∧
        (∀ j, j ≠ proc_id →
          (proc_mp_x64_signal_proc st proc_id msg).state.inter_proc_signals[j]? =
            st.inter_proc_signals[j]?)) ∧
    (slot0.msg_control_state ≠ .NO_MSG →
      (proc_mp_x64_signal_proc st proc_id msg).panic =
        some "ASSERT failed: msg_control_state == NO_MSG") := by
  obtain ⟨target, htarget⟩ : ∃ t, st.proc_info_block[proc_id]? = some t := by
    rw [List.getElem?_eq_getElem hpid]
    exact ⟨_, rfl⟩
  have hfind : find_lapic target.lapic_id st.proc_info_block = some proc_id := by
    have h := find_lapic_nodup st.proc_info_block proc_id target htarget hnodup
    rwa [hids proc_id target htarget] at h
  have hpos : 0 < st.proc_info_block.length :=
    Nat.lt_of_le_of_lt (Nat.zero_le proc_id) hpid
  have hthis : proc_mp_this_proc_id st.proc_info_block target.lapic_id =
      .ok proc_id := by
    unfold proc_mp_this_proc_id
    rw [if_pos hpos, hfind]
  constructor
  · intro hidle
    refine ⟨target, htarget, ?_⟩
    simp only [proc_mp_x64_signal_proc, hpid, if_true, hslot, htarget, hlock,
      Bool.false_eq_true, if_false, hidle, reduceIte,
      proc_mp_x64_receive_signal_int, list_modify_modify, list_modify_get_same,
      hthis, Option.map_some]
    simp only [Option.map_some']
    simp [list_modify_modify, list_modify_get_same, hslot]
    intro j hj
    exact list_modify_get_other _ _ _ _ (fun h => hj h.symm)
  · intro hbusy
    simp only [proc_mp_x64_signal_proc, hpid, if_true, hslot, htarget, hlock,
      Bool.false_eq_true, if_false]
    rw [if_neg hbusy]

/-- Witness for C4: a two-processor system at rest; processor 0 (lapic 10)
signals RESUME to processor 1 (lapic 20); the call completes without a
panic. -/
theorem C4_signal_transaction_witness :
    (proc_mp_x64_signal_proc
      { proc_info_block :=
          [{ processor_id := 0, processor_running := true, lapic_id := 10 },
           { processor_id := 1, processor_running := true, lapic_id := 20 }]
        inter_proc_signals :=
          [{ msg_being_sent := .SUSPEND, msg_control_state := .NO_MSG,
             signal_lock := false },
           { msg_being_sent := .SUSPEND, msg_control_state := .NO_MSG,
             signal_lock := false }] } 1 .RESUME).panic = none := by
  have h := (C4_signal_transaction
    { proc_info_block :=
        [{ processor_id := 0, processor_running := true, lapic_id := 10 },
         { processor_id := 1, processor_running := true, lapic_id := 20 }]
      inter_proc_signals :=
        [{ msg_being_sent := .SUSPEND, msg_control_state := .NO_MSG,
           signal_lock := false },
         { msg_being_sent := .SUSPEND, msg_control_state := .NO_MSG,
           signal_lock := false }] } 1 .RESUME
    { msg_being_sent := .SUSPEND, msg_control_state := .NO_MSG,
      signal_lock := false }
    (by
      intro i r h
      match i with
      | 0 =>
          simp at h
          subst h
          rfl
      | 1 =>
          simp at h
          subst h
          rfl
      | Nat.succ (Nat.succ n) => simp at h)
    (by decide) (by decide) (by decide) rfl).1 rfl
  obtain ⟨t, ht, hpanic, hrest⟩ := h
  exact hpanic

/-- The externally visible steps of `proc_mp_ap_startup` (lines 226-258),
in the order the source performs them: enable FP math
(`asm_proc_enable_fp_math`), zero the per-CPU kernel state pointer
(`proc_write_msr(IA32_KERNEL_GS_BASE, 0)`), install the IDT, initialise
the PAT, prepare the syscall MSRs, load the GDT, load the TSS for this
processor, configure the local interrupt controller, store
`processor_running = true`, enable interrupts, and stall waiting for the
scheduler. -/
inductive ApEvent where
  | enable_fp_math
  | zero_gs_base
  | install_idt
  | pat_init
  | syscall_x64_prepare
  | load_gdt
  | load_tss (proc_num : Nat)
  | conf_local_int_controller
  | set_running (proc_num : Nat)
  | start_interrupts
  | stall_wait (ns : Nat)
  deriving DecidableEq, Repr

/-- The outcome of the AP entry path: an optional panic, the processor
table as left behind, and the trace of steps performed. -/
structure ApResult where
  panic : Option String
  proc_info_block : List processor_info
  events : List ApEvent
  deriving DecidableEq, Repr

/-- `proc_mp_ap_startup` (lines 226-258).  FP math is enabled first; the
processor self-identifies and `ASSERT(proc_num != 0)` fires on the BSP;
then the init steps run in source order and `processor_running = true` is
stored into this processor's record.  The path ends by enabling
interrupts and stalling for the scheduler: in this straight-line model no
scheduler ever takes over, so it reaches the unconditional
`panic("Failed to start AP")` — which is the source's own terminal
behaviour when nothing schedules the AP within the 2 s stall. -/
def proc_mp_ap_startup (blk : List processor_info) (local_apic_id : Nat) : ApResult :=
  match proc_mp_this_proc_id blk local_apic_id with
  | .error e =>
      { panic := some e, proc_info_block := blk, events := [ .enable_fp_math ] }
  | .ok proc_num =>
      if proc_num = 0 then
        { panic := some "ASSERT failed: proc_num != 0", proc_info_block := blk
          events := [ .enable_fp_math ] }
      else
        { panic := some "Failed to start AP"
          proc_info_block :=
            list_modify blk proc_num (fun p => { p with processor_running := true })
          events :=
            [ .enable_fp_math, .zero_gs_base, .install_idt, .pat_init,
              .syscall_x64_prepare, .load_gdt, .load_tss proc_num,
              .conf_local_int_controller, .set_running proc_num,
              .start_interrupts, .stall_wait 2000000000 ] }

/-- Index of the first occurrence of an event in a trace. -/
def ap_event_index (tr : List ApEvent) (e : ApEvent) : Nat :=
  tr.findIdx (fun x => x = e)

/-- The step ordering asserted by claim C8, stated over a trace following
the claim's words (not the source): first zero the per-CPU kernel state
pointer, then install the descriptor tables (IDT, GDT, TSS), then
initialise the CPU-local features (PAT, syscall MSRs, FP) and the local
interrupt controller, and store running = true after all of these. -/
def C8_claimed_order (tr : List ApEvent) (n : Nat) : Prop :=
  (ap_event_index tr .zero_gs_base < ap_event_index tr .install_idt ∧
   ap_event_index tr .zero_gs_base < ap_event_index tr .load_gdt ∧
   ap_event_index tr .zero_gs_base < ap_event_index tr (.load_tss n)) ∧
  (ap_event_index tr .install_idt < ap_event_index tr .pat_init ∧
   ap_event_index tr .load_gdt < ap_event_index tr .pat_init ∧
   ap_event_index tr (.load_tss n) < ap_event_index tr .pat_init ∧
   ap_event_index tr .install_idt < ap_event_index tr .syscall_x64_prepare ∧
   ap_event_index tr .load_gdt < ap_event_index tr .syscall_x64_prepare ∧
   ap_event_index tr (.load_tss n) < ap_event_index tr .syscall_x64_prepare ∧
   ap_event_index tr .install_idt < ap_event_index tr .enable_fp_math ∧
   ap_event_index tr .load_gdt < ap_event_index tr .enable_fp_math ∧
   ap_event_index tr (.load_tss n) < ap_event_index tr .enable_fp_math) ∧
  (ap_event_index tr .pat_init < ap_event_index tr (.set_running n) ∧
   ap_event_index tr .syscall_x64_prepare < ap_event_index tr (.set_running n) ∧
   ap_event_index tr .enable_fp_math < ap_event_index tr (.set_running n) ∧
   ap_event_index tr .conf_local_int_controller < ap_event_index tr (.set_running n))

/-- C8 counterexample: on a two-processor table with the AP at index 1,
the trace of the AP entry path does NOT satisfy the claimed ordering: FP
math is enabled before the per-CPU pointer is zeroed, and the PAT and
syscall MSRs are initialised between the IDT install and the GDT load
rather than after all three descriptor tables. -/
theorem C8_counterexample :
    ¬ C8_claimed_order
      (proc_mp_ap_startup
        [{ processor_id := 0, processor_running := true, lapic_id := 3 },
         { processor_id := 1, processor_running := false, lapic_id := 7 }] 7).events
      1 := by
  simp only [C8_claimed_order]
  decide

/-- C8 amended: the AP entry path performs, in source order: enable FP
math, zero the per-CPU kernel state pointer, install the IDT, initialise
the PAT, prepare the syscall MSRs, load the GDT, load the TSS, configure
the local interrupt controller — and only then stores running = true into
its own record, before enabling interrupts; so an observer reading
running == true may conclude the AP has completed every one of these init
steps. -/
theorem C8_amended_running_published_last (blk : List processor_info)
    (lapic n : Nat) (hthis : proc_mp_this_proc_id blk lapic = .ok n)
    (hn : n ≠ 0) :
    (proc_mp_ap_startup blk lapic).events =
      [ .enable_fp_math, .zero_gs_base, .install_idt, .pat_init,
        .syscall_x64_prepare, .load_gdt, .load_tss n,
        .conf_local_int_controller, .set_running n, .start_interrupts,
        .stall_wait 2000000000 ] ∧
    (proc_mp_ap_startup blk lapic).proc_info_block =
      list_modify blk n (fun p => { p with processor_running := true }) ∧
    (∀ e ∈ [ ApEvent.enable_fp_math, .zero_gs_base, .install_idt, .pat_init,
        .syscall_x64_prepare, .load_gdt, .load_tss n,
        .conf_local_int_controller ],
      ap_event_index (proc_mp_ap_startup blk lapic).events e <
        ap_event_index (proc_mp_ap_startup blk lapic).events (.set_running n)) := by
  refine ⟨by simp [proc_mp_ap_startup, hthis, hn], by simp [proc_mp_ap_startup, hthis, hn], ?_⟩
  intro e he
  simp [proc_mp_ap_startup, hthis, hn]
  fin_cases he <;> simp [ap_event_index, List.findIdx, List.findIdx.go]

/-- Witness for C8 amended at the two-processor table used above. -/
theorem C8_amended_witness :
    (proc_mp_ap_startup
      [{ processor_id := 0, processor_running := true, lapic_id := 3 },
       { processor_id := 1, processor_running := false, lapic_id := 7 }] 7).events =
      [ .enable_fp_math, .zero_gs_base, .install_idt, .pat_init,
        .syscall_x64_prepare, .load_gdt, .load_tss 1,
        .conf_local_int_controller, .set_running 1, .start_interrupts,
        .stall_wait 2000000000 ] :=
  (C8_amended_running_published_last
    [{ processor_id := 0, processor_running := true, lapic_id := 3 },
     { processor_id := 1, processor_running := false, lapic_id := 7 }] 7 1
    rfl (by decide)).1

/-- C10: if the AP entry path self-identifies as processor 0 (the BSP),
the assertion fires — the bootstrap processor can never run the AP
onboarding code; the processor table is untouched and none of the
onboarding steps beyond the initial FP enable happens. -/
theorem C10_ap_entry_not_bsp (blk : List processor_info) (lapic : Nat)
    (h : proc_mp_this_proc_id blk lapic = .ok 0) :
    proc_mp_ap_startup blk lapic =
      { panic := some "ASSERT failed: proc_num != 0", proc_info_block := blk
        events := [ .enable_fp_math ] } := by
  simp [proc_mp_ap_startup, h]

/-- Witness for C10: before enumeration the table is empty and self-id
returns 0, so the AP entry path is fatal. -/
theorem C10_ap_entry_not_bsp_witness :
    proc_mp_ap_startup [] 5 =
      { panic := some "ASSERT failed: proc_num != 0", proc_info_block := []
        events := [ .enable_fp_math ] } :=
  C10_ap_entry_not_bsp [] 5 rfl

end MPX64
